import Mathlib

/-!
# devcampfriesrestaurant: the cart script `styles/scripts/main.js`

A shallow embedding of the cart system of `main.js` (the second IIFE of the
file) and the properties of its specification.

Modelling conventions.

* JavaScript numbers are `JNum`: the finite values are exact rationals, and the
  three non-finite values `NaN`, `+Infinity`, `-Infinity` are kept, because
  `Number(...)` produces them from text and `JSON.stringify` turns them into
  `null`.  Rounding and overflow of IEEE doubles are not modelled, and `-0` is
  identified with `0`.
* A cart item is a record `id, name, price, qty` whose `id` and `name` are
  strings and whose `price` and `qty` hold a number or `null`.
* `localStorage` is reduced to the one slot `CART_KEY`.  The text in the slot
  is represented by what the script can observe of it: whether it is there,
  whether it is empty, and what `JSON.parse` does with it (`Storage`).
* The DOM updates (`updateCartCountUI`, `renderCartPage`, button labels) read
  the slot and never write it; they are left out of the storage transformers.
* Exceptions are explicit: every function that may throw returns `Except`.
-/

namespace DevcampFries

/-! ## JavaScript numbers -/

/-- A JavaScript Number: a finite value, `NaN`, `+Infinity` or `-Infinity`. -/
inductive JNum where
  | fin (q : ℚ)
  | nan
  | posInf
  | negInf
  deriving DecidableEq

namespace JNum

/-- ToBoolean on a Number: `0` and `NaN` are falsy. -/
def truthy : JNum → Bool
  | fin q => decide (q ≠ 0)
  | nan => false
  | posInf => true
  | negInf => true

/-- Unary minus. -/
def neg : JNum → JNum
  | fin q => fin (-q)
  | nan => nan
  | posInf => negInf
  | negInf => posInf

/-- Number addition `a + b`. -/
def add : JNum → JNum → JNum
  | fin a, fin b => fin (a + b)
  | fin _, posInf => posInf
  | fin _, negInf => negInf
  | posInf, fin _ => posInf
  | posInf, posInf => posInf
  | posInf, negInf => nan
  | negInf, fin _ => negInf
  | negInf, negInf => negInf
  | negInf, posInf => nan
  | nan, _ => nan
  | _, nan => nan

/-- Number subtraction `a - b`. -/
def sub (a b : JNum) : JNum := add a (neg b)

/-- Product of an infinity (`+Infinity` when `pos`) with the finite value `q`. -/
def infTimes (pos : Bool) (q : ℚ) : JNum :=
  if q = 0 then nan else if (0 < q) = pos then posInf else negInf

/-- Number multiplication `a * b`. -/
def mul : JNum → JNum → JNum
  | fin a, fin b => fin (a * b)
  | fin a, posInf => infTimes true a
  | fin a, negInf => infTimes false a
  | posInf, fin b => infTimes true b
  | negInf, fin b => infTimes false b
  | posInf, posInf => posInf
  | posInf, negInf => negInf
  | negInf, posInf => negInf
  | negInf, negInf => posInf
  | nan, _ => nan
  | _, nan => nan

/-- The two-argument `Math.max(a, b)`: `NaN` if either is `NaN`. -/
def max : JNum → JNum → JNum
  | fin a, fin b => fin (Max.max a b)
  | fin _, posInf => posInf
  | fin a, negInf => fin a
  | posInf, fin _ => posInf
  | posInf, posInf => posInf
  | posInf, negInf => posInf
  | negInf, fin b => fin b
  | negInf, posInf => posInf
  | negInf, negInf => negInf
  | nan, _ => nan
  | _, nan => nan

/-- The comparison `n >= 1`. -/
def geOne : JNum → Bool
  | fin q => decide (1 ≤ q)
  | posInf => true
  | nan => false
  | negInf => false

end JNum

/-! ## `Number(text)` -/

/-- The characters `StrWhiteSpaceChar` of the numeric string grammar: white
space and line terminators, by code point. -/
def isStrWhiteSpace (c : Char) : Bool :=
  let n := c.toNat
  n == 9 || n == 10 || n == 11 || n == 12 || n == 13 || n == 32 || n == 160 ||
  n == 0x1680 || (0x2000 ≤ n && n ≤ 0x200A) || n == 0x2028 || n == 0x2029 ||
  n == 0x202F || n == 0x205F || n == 0x3000 || n == 0xFEFF

/-- Text with leading and trailing `StrWhiteSpaceChar` removed. -/
def trimStr (cs : List Char) : List Char :=
  ((cs.dropWhile isStrWhiteSpace).reverse.dropWhile isStrWhiteSpace).reverse

/-- Value of one digit in the given base (`2`, `8`, `10` or `16`). -/
def digitValue (base : Nat) (c : Char) : Option Nat :=
  let n := c.toNat
  let v : Option Nat :=
    if 48 ≤ n && n ≤ 57 then some (n - 48)
    else if 97 ≤ n && n ≤ 102 then some (n - 87)
    else if 65 ≤ n && n ≤ 70 then some (n - 55)
    else none
  v.bind fun d => if d < base then some d else none

/-- Value of a non-empty run of digits in the given base. -/
def digitsValue (base : Nat) (cs : List Char) : Option Nat :=
  if cs.isEmpty then none
  else cs.foldl (fun acc c => acc.bind fun a => (digitValue base c).map fun d => a * base + d)
    (some 0)

/-- The exponent part `e±ddd` of a decimal literal; the empty text is exponent 0. -/
def exponentPart (cs : List Char) : Option Int :=
  match cs with
  | [] => some 0
  | c :: rest =>
    if c.toNat == 101 || c.toNat == 69 then
      match rest with
      | s :: ds =>
        if s.toNat == 43 then (digitsValue 10 ds).map Int.ofNat
        else if s.toNat == 45 then (digitsValue 10 ds).map fun n => - Int.ofNat n
        else (digitsValue 10 rest).map Int.ofNat
      | [] => none
    else none

/-- An unsigned decimal literal: `Infinity`, `ddd.ddd e±dd`, `.ddd e±dd`, `ddd e±dd`. -/
def unsignedDecimal (cs : List Char) : JNum :=
  if cs = "Infinity".toList then JNum.posInf
  else
    let ip := cs.takeWhile fun c => (digitValue 10 c).isSome
    let r1 := cs.dropWhile fun c => (digitValue 10 c).isSome
    let fp : List Char := match r1 with
      | c :: r2 => if c.toNat == 46 then r2.takeWhile fun d => (digitValue 10 d).isSome else []
      | [] => []
    let r3 : List Char := match r1 with
      | c :: r2 => if c.toNat == 46 then r2.dropWhile fun d => (digitValue 10 d).isSome else r1
      | [] => []
    if ip.isEmpty && fp.isEmpty then JNum.nan
    else
      match digitsValue 10 (ip ++ fp), exponentPart r3 with
      | some m, some e => JNum.fin ((m : ℚ) * (10 : ℚ) ^ (e - (fp.length : Int)))
      | _, _ => JNum.nan

/-- The abstract operation StringToNumber, as applied by `Number(text)`. -/
def stringToNumber (s : String) : JNum :=
  match trimStr s.toList with
  | [] => JNum.fin 0
  | c :: rest =>
    if c.toNat == 43 then unsignedDecimal rest
    else if c.toNat == 45 then (unsignedDecimal rest).neg
    else if c.toNat == 48 then
      match rest with
      | p :: ds =>
        if p.toNat == 120 || p.toNat == 88 then
          match digitsValue 16 ds with | some n => JNum.fin n | none => JNum.nan
        else if p.toNat == 111 || p.toNat == 79 then
          match digitsValue 8 ds with | some n => JNum.fin n | none => JNum.nan
        else if p.toNat == 98 || p.toNat == 66 then
          match digitsValue 2 ds with | some n => JNum.fin n | none => JNum.nan
        else unsignedDecimal (c :: rest)
      | [] => unsignedDecimal (c :: rest)
    else unsignedDecimal (c :: rest)

/-- A primitive JavaScript value, as passed to `Number(...)`. -/
inductive Prim where
  | undefined
  | null
  | bool (b : Bool)
  | num (n : JNum)
  | str (s : String)
  deriving DecidableEq

/-- The conversion `Number(v)` on a primitive value. -/
def Prim.toNumber : Prim → JNum
  | .undefined => JNum.nan
  | .null => JNum.fin 0
  | .bool b => if b then JNum.fin 1 else JNum.fin 0
  | .num n => n
  | .str s => stringToNumber s

/-! ## Cart items and the storage slot -/

/-- The value of a numeric property of an object in memory: a Number or `null`. -/
inductive Field where
  | num (n : JNum)
  | null
  deriving DecidableEq

/-- ToNumber on a property value: `null` converts to `0`. -/
def Field.toNumber : Field → JNum
  | .num n => n
  | .null => JNum.fin 0

/-- ToBoolean on a property value: `null`, `0` and `NaN` are falsy. -/
def Field.truthy : Field → Bool
  | .num n => n.truthy
  | .null => false

/-- The value of a numeric property in JSON text: a finite number or `null`. -/
inductive JsonNum where
  | num (q : ℚ)
  | null
  deriving DecidableEq

/-- How `JSON.stringify` writes a numeric property: a non-finite Number
is written as `null`. -/
def Field.toJson : Field → JsonNum
  | .num (JNum.fin q) => JsonNum.num q
  | .num JNum.nan => JsonNum.null
  | .num JNum.posInf => JsonNum.null
  | .num JNum.negInf => JsonNum.null
  | .null => JsonNum.null

/-- How `JSON.parse` reads a numeric property. -/
def JsonNum.toField : JsonNum → Field
  | .num q => Field.num (JNum.fin q)
  | .null => Field.null

/-- A cart line `id, name, price, qty`, with numeric properties of type `ν`. -/
structure Item (ν : Type) where
  id : String
  name : String
  price : ν
  qty : ν
  deriving DecidableEq

/-- A cart item as an object in memory. -/
abbrev CartItem := Item Field

/-- A cart item as written in the stored JSON text. -/
abbrev StoredItem := Item JsonNum

/-- A cart in memory: the array the cart operations work on. -/
abbrev Cart := List CartItem

/-- The object written by `JSON.stringify` for an item. -/
def Item.toJson (x : CartItem) : StoredItem :=
  { id := x.id, name := x.name, price := x.price.toJson, qty := x.qty.toJson }

/-- The object built by `JSON.parse` for a stored item. -/
def Item.ofJson (x : StoredItem) : CartItem :=
  { id := x.id, name := x.name, price := x.price.toField, qty := x.qty.toField }

/-- The result of `JSON.parse` on a text it accepts.  An array is taken to hold
item records; the content of a non-array object is not inspected by the script. -/
inductive JsonValue where
  | null
  | bool (b : Bool)
  | number (q : ℚ)
  | string (s : String)
  | object
  | array (items : List StoredItem)
  deriving DecidableEq

/-- The content of the `localStorage` slot `CART_KEY`, up to what `loadCart`
can observe of it. -/
inductive Storage where
  -- no entry: `getItem` returns `null`
  | absent
  -- the empty string
  | empty
  -- a non-empty text that `JSON.parse` rejects with a `SyntaxError`
  | malformed
  -- a non-empty text that `JSON.parse` accepts, with the value it yields
  | json (v : JsonValue)
  deriving DecidableEq

/-- An exception raised by the platform. -/
inductive JsError where
  | syntaxError
  deriving DecidableEq

deriving instance DecidableEq for Except

/-- The condition `raw ? ... : ...` on the result of `getItem`: `null` and the
empty string are falsy. -/
def Storage.truthy : Storage → Bool
  | .absent => false
  | .empty => false
  | .malformed => true
  | .json _ => true

/-- The call `JSON.parse(raw)` on the result of `getItem`.  `null` is first
converted to the text `null`, which parses to `null`; the empty text is rejected. -/
def jsonParse : Storage → Except JsError JsonValue
  | .absent => .ok JsonValue.null
  | .empty => .error JsError.syntaxError
  | .malformed => .error JsError.syntaxError
  | .json v => .ok v

/-- The statement `try { body } catch { handler }`. -/
def tryCatch {α : Type} (body : Except JsError α) (handler : Except JsError α) :
    Except JsError α :=
  match body with
  | .ok a => .ok a
  | .error _ => handler

/-- The function `loadCart` (lines 47-55). -/
def loadCart (s : Storage) : Except JsError Cart :=
  tryCatch
    (do
      let raw := s
      let parsed ← if raw.truthy then jsonParse raw else pure (JsonValue.array [])
      -- `Array.isArray(parsed) ? parsed : []`
      match parsed with
      | .array items => pure (items.map Item.ofJson)
      | _ => pure [])
    (pure [])

/-- The function `saveCart` (lines 57-59): `setItem` replaces the slot by the
JSON text of the cart, which is never empty and always parses back to an array. -/
def saveCart (_s : Storage) (cart : Cart) : Storage :=
  Storage.json (JsonValue.array (cart.map Item.toJson))

/-- The function `getCartCount` (lines 61-63). -/
def getCartCount (cart : Cart) : JNum :=
  cart.foldl
    (fun sum item =>
      sum.add (if item.qty.truthy then item.qty else Field.num (JNum.fin 0)).toNumber)
    (JNum.fin 0)

/-! ## Cart operations -/

/-- The effect of `find` followed by an in-place update of the object found:
the first element satisfying `p` is replaced by its image under `f`. -/
def updateFirst {α : Type} (p : α → Bool) (f : α → α) : List α → List α
  | [] => []
  | x :: xs => if p x then f x :: xs else x :: updateFirst p f xs

/-- The argument object of `addToCart`; an omitted `qty` is `none`. -/
structure AddArgs where
  id : String
  name : String
  price : Prim
  qty : Option JNum

/-- The function `addToCart` (lines 77-95). -/
def addToCart (s : Storage) (a : AddArgs) : Except JsError Storage := do
  let qty : JNum := a.qty.getD (JNum.fin 1)
  let cart ← loadCart s
  let cart1 :=
    match cart.find? (fun x => x.id == a.id) with
    | some _ =>
      updateFirst (fun x => x.id == a.id)
        (fun existing => { existing with qty := Field.num (existing.qty.toNumber.add qty) }) cart
    | none =>
      cart ++ [{ id := a.id, name := a.name, price := Field.num a.price.toNumber,
                 qty := Field.num qty }]
  pure (saveCart s cart1)

/-- The function `setQty` (lines 97-106). -/
def setQty (s : Storage) (id : String) (nextQty : Prim) : Except JsError Storage := do
  let cart ← loadCart s
  match cart.find? (fun x => x.id == id) with
  | none => pure s
  | some _ =>
    let n := nextQty.toNumber
    let v := if n.truthy then n else JNum.fin 1
    pure (saveCart s
      (updateFirst (fun x => x.id == id)
        (fun item => { item with qty := Field.num (JNum.max (JNum.fin 1) v) }) cart))

/-- The function `incQty` (lines 108-117). -/
def incQty (s : Storage) (id : String) : Except JsError Storage := do
  let cart ← loadCart s
  match cart.find? (fun x => x.id == id) with
  | none => pure s
  | some _ =>
    pure (saveCart s
      (updateFirst (fun x => x.id == id)
        (fun item => { item with qty := Field.num (item.qty.toNumber.add (JNum.fin 1)) }) cart))

/-- The function `decQty` (lines 119-128). -/
def decQty (s : Storage) (id : String) : Except JsError Storage := do
  let cart ← loadCart s
  match cart.find? (fun x => x.id == id) with
  | none => pure s
  | some _ =>
    pure (saveCart s
      (updateFirst (fun x => x.id == id)
        (fun item =>
          { item with qty := Field.num (JNum.max (JNum.fin 1) (item.qty.toNumber.sub (JNum.fin 1))) })
        cart))

/-- The function `removeItem` (lines 130-135). -/
def removeItem (s : Storage) (id : String) : Except JsError Storage := do
  let cart ← loadCart s
  pure (saveCart s (cart.filter (fun x => x.id != id)))

/-- The function `clearCart` (lines 137-141). -/
def clearCart (s : Storage) : Except JsError Storage :=
  pure (saveCart s [])

/-- The condition `!v` on a `dataset` attribute: a missing attribute
(`undefined`) and the empty string are falsy. -/
def attrMissing : Option String → Bool
  | none => true
  | some v => v == ""

/-- The click handler of an add-to-cart button (lines 149-161), on the three
`data-` attributes of the button. -/
def addButtonClick (s : Storage) (id name price : Option String) : Except JsError Storage :=
  if attrMissing id || attrMissing name || attrMissing price then pure s
  else
    addToCart s
      { id := id.getD "", name := name.getD "", price := Prim.str (price.getD ""),
        qty := some (JNum.fin 1) }

/-! ## Totals and checkout -/

/-- The constant `TAX_RATE = 0.0825`. -/
def TAX_RATE : JNum := JNum.fin (825 / 10000)

/-- The object returned by `computeTotals`. -/
structure Totals where
  subtotal : JNum
  tax : JNum
  total : JNum
  deriving DecidableEq

/-- The function `computeTotals` (lines 166-171). -/
def computeTotals (cart : Cart) : Totals :=
  let subtotal :=
    cart.foldl (fun sum item => sum.add (item.price.toNumber.mul item.qty.toNumber)) (JNum.fin 0)
  let tax := subtotal.mul TAX_RATE
  let total := subtotal.add tax
  { subtotal := subtotal, tax := tax, total := total }

/-- What the checkout click handler leaves behind. -/
structure CheckoutOutcome where
  -- the storage slot after the handler
  storage : Storage
  -- the total shown by the `confirm` dialog, when the dialog was opened
  asked : Option JNum
  -- the text written to `#checkoutMessage`, when one was written
  message : Option String
  deriving DecidableEq

/-- The order number `FRIES-n` with `n = Math.floor(100000 + r * 900000)`,
for the draw `r` of `Math.random()`. -/
def orderNumber (r : ℚ) : String :=
  "FRIES-" ++ toString (Int.floor (100000 + r * 900000))

/-- The click handler of the checkout button (lines 277-293): `hasMessageEl`
tells whether `#checkoutMessage` exists, `ok` is the answer to `confirm`, and
`r` is the draw of `Math.random()`. -/
def checkoutClick (s : Storage) (hasMessageEl : Bool) (ok : Bool) (r : ℚ) :
    Except JsError CheckoutOutcome := do
  let cart ← loadCart s
  if cart.length == 0 then
    pure { storage := s, asked := none, message := none }
  else
    let total := (computeTotals cart).total
    if !ok then
      pure { storage := s, asked := some total, message := none }
    else
      let order := orderNumber r
      let s1 ← clearCart s
      pure { storage := s1, asked := some total,
             message :=
               if hasMessageEl then
                 some ("✅ Order placed! Your order number is " ++ order ++ ".")
               else none }

/-! ## Predicates of the specification -/

/-- The ids of a cart, in order. -/
def ids (cart : Cart) : List String := cart.map fun x => x.id

/-- Exactly one item per id. -/
def UniqueIds (cart : Cart) : Prop := (ids cart).Nodup

/-- The number of distinct ids in a cart. -/
def distinctIds (cart : Cart) : Nat := (ids cart).dedup.length

/-- The comparison `qty >= 1` on a property value (`null` compares as `0`). -/
def Field.geOne (f : Field) : Bool := f.toNumber.geOne

/-- The cart validity predicate: one item per id, and every `qty >= 1`. -/
def CartValid (cart : Cart) : Prop :=
  UniqueIds cart ∧ ∀ x ∈ cart, x.qty.geOne = true

/-- A price of the data model: a finite number that is not negative. -/
def Field.isPrice : Field → Bool
  | .num (JNum.fin p) => decide (0 ≤ p)
  | _ => false

/-- A quantity of the data model: an integer that is at least 1. -/
def Field.isQuantity : Field → Bool
  | .num (JNum.fin q) => decide (q.den = 1 ∧ 1 ≤ q)
  | _ => false

/-- A cart of the data model: unique ids, prices that are non-negative
numbers, quantities that are integers `>= 1`. -/
def CartConforms (cart : Cart) : Prop :=
  UniqueIds cart ∧ ∀ x ∈ cart, x.price.isPrice = true ∧ x.qty.isQuantity = true

/-- An item as it is after `JSON.stringify` and `JSON.parse`. -/
def Item.persisted (x : CartItem) : CartItem := Item.ofJson (Item.toJson x)

/-- An operation applied twice in a row. -/
def twice (f : Storage → Except JsError Storage) (s : Storage) : Except JsError Storage := do
  let s1 ← f s
  f s1

/-- The cart of the totals example of the specification. -/
def exampleCart : Cart :=
  [ { id := "a", name := "A", price := Field.num (JNum.fin (5 / 2)), qty := Field.num (JNum.fin 2) },
    { id := "b", name := "B", price := Field.num (JNum.fin 1), qty := Field.num (JNum.fin 3) } ]

instance (cart : Cart) : Decidable (UniqueIds cart) := by
  unfold UniqueIds
  infer_instance

instance (cart : Cart) : Decidable (CartValid cart) := by
  unfold CartValid
  infer_instance

instance (cart : Cart) : Decidable (CartConforms cart) := by
  unfold CartConforms
  infer_instance

/-- Following the specification of `setQty`: the quantity for an input whose
numeric value is `n` is `max(1, n)` when `n` is a number and `1` when the input
is not numeric (`n` is `NaN`). -/
def specQty : JNum → JNum
  | .fin q => JNum.fin (Max.max 1 q)
  | .nan => JNum.fin 1
  | .posInf => JNum.posInf
  | .negInf => JNum.fin 1

/-- A stored cart with one line, used in the examples. -/
def oneLine (qty : ℚ) : Storage :=
  Storage.json (JsonValue.array
    [{ id := "fries", name := "Fries", price := JsonNum.num (5 / 2), qty := JsonNum.num qty }])

/-- A stored cart with two lines, used in the examples. -/
def twoLines : Storage :=
  Storage.json (JsonValue.array
    [{ id := "fries", name := "Fries", price := JsonNum.num (5 / 2), qty := JsonNum.num 2 },
     { id := "soda", name := "Soda", price := JsonNum.num 1, qty := JsonNum.num 3 }])

theorem loadCart_absent : loadCart Storage.absent = .ok [] := rfl

theorem loadCart_empty : loadCart Storage.empty = .ok [] := rfl

theorem loadCart_malformed : loadCart Storage.malformed = .ok [] := rfl

theorem loadCart_array (items : List StoredItem) :
    loadCart (Storage.json (JsonValue.array items)) = .ok (items.map Item.ofJson) := rfl

theorem loadCart_total (s : Storage) : ∃ cart, loadCart s = .ok cart := by
  cases s with
  | absent => exact ⟨_, rfl⟩
  | empty => exact ⟨_, rfl⟩
  | malformed => exact ⟨_, rfl⟩
  | json v => cases v <;> exact ⟨_, rfl⟩

theorem loadCart_saveCart (s : Storage) (cart : Cart) :
    loadCart (saveCart s cart) = .ok (cart.map Item.persisted) := by
  simp [saveCart, loadCart_array, List.map_map, Item.persisted, Function.comp_def]

theorem toJson_toField (j : JsonNum) : j.toField.toJson = j := by
  cases j <;> rfl

theorem toJson_ofJson (x : StoredItem) : Item.toJson (Item.ofJson x) = x := by
  cases x
  simp [Item.toJson, Item.ofJson, toJson_toField]

theorem persisted_ofJson (x : StoredItem) : Item.persisted (Item.ofJson x) = Item.ofJson x := by
  simp [Item.persisted, toJson_ofJson]

/-- A cart read from storage consists of images of stored items. -/
theorem loadCart_image {s : Storage} {cart : Cart} (h : loadCart s = .ok cart) :
    ∃ items : List StoredItem, cart = items.map Item.ofJson := by
  cases s with
  | absent => exact ⟨[], by simpa [loadCart_absent] using h.symm⟩
  | empty => exact ⟨[], by simpa [loadCart_empty] using h.symm⟩
  | malformed => exact ⟨[], by simpa [loadCart_malformed] using h.symm⟩
  | json v =>
    cases v with
    | array items => exact ⟨items, by simpa [loadCart_array] using h.symm⟩
    | null => exact ⟨[], by cases h; rfl⟩
    | bool b => exact ⟨[], by cases h; rfl⟩
    | number q => exact ⟨[], by cases h; rfl⟩
    | string t => exact ⟨[], by cases h; rfl⟩
    | object => exact ⟨[], by cases h; rfl⟩

/-- A cart read from storage is unchanged by a JSON round trip. -/
theorem loadCart_stable {s : Storage} {cart : Cart} (h : loadCart s = .ok cart) :
    cart.map Item.persisted = cart := by
  obtain ⟨items, rfl⟩ := loadCart_image h
  simp [List.map_map, Function.comp_def, persisted_ofJson]

theorem ids_append (l1 l2 : Cart) : ids (l1 ++ l2) = ids l1 ++ ids l2 := by
  simp [ids]

theorem ids_cons (x : CartItem) (l : Cart) : ids (x :: l) = x.id :: ids l := rfl

theorem mem_ids {id : String} {cart : Cart} : id ∈ ids cart ↔ ∃ x ∈ cart, x.id = id := by
  simp [ids]

/-- A cart with unique ids splits around the item with a given id. -/
theorem split_at_id {id : String} {cart : Cart} (hu : UniqueIds cart) (hmem : id ∈ ids cart) :
    ∃ l1 x l2, cart = l1 ++ x :: l2 ∧ x.id = id ∧ id ∉ ids l1 ∧ id ∉ ids l2 := by
  obtain ⟨x, hx, hid⟩ := mem_ids.mp hmem
  obtain ⟨l1, l2, rfl⟩ := List.append_of_mem hx
  refine ⟨l1, x, l2, rfl, hid, ?_, ?_⟩
  · intro h1
    have hu2 : (ids l1 ++ x.id :: ids l2).Nodup := by
      simpa [UniqueIds, ids_append, ids_cons] using hu
    have := (List.nodup_append.mp hu2).2.2
    exact List.disjoint_left.mp this h1 (by simp [hid])
  · intro h2
    have hu2 : (ids l1 ++ x.id :: ids l2).Nodup := by
      simpa [UniqueIds, ids_append, ids_cons] using hu
    have h3 := (List.nodup_append.mp hu2).2.1
    rw [List.nodup_cons] at h3
    exact h3.1 (hid ▸ h2)

theorem filter_ne_of_not_mem {id : String} {l : Cart} (h : id ∉ ids l) :
    l.filter (fun x => x.id != id) = l := by
  rw [List.filter_eq_self]
  intro x hx
  simp only [bne_iff_ne, ne_eq]
  exact fun hid => h (mem_ids.mpr ⟨x, hx, hid⟩)

theorem filter_split {id : String} (l1 l2 : Cart) (x : CartItem) (hx : x.id = id)
    (h1 : id ∉ ids l1) (h2 : id ∉ ids l2) :
    (l1 ++ x :: l2).filter (fun y => y.id != id) = l1 ++ l2 := by
  simp [List.filter_append, List.filter_cons, hx, filter_ne_of_not_mem h1,
    filter_ne_of_not_mem h2]

theorem distinctIds_of_unique {cart : Cart} (hu : UniqueIds cart) :
    distinctIds cart = cart.length := by
  rw [distinctIds, List.Nodup.dedup hu]
  simp [ids]

/-- C7: on a cart with unique ids, `removeItem` with an id that is present
leaves exactly the other items, in their order, so there is one distinct id
less; with an id that is absent it leaves the same cart; it never throws. -/
theorem removeItem_spec (s : Storage) (cart : Cart) (id : String)
    (hload : loadCart s = .ok cart) (hu : UniqueIds cart) :
    (id ∈ ids cart →
      ∃ l1 x l2 s1, cart = l1 ++ x :: l2 ∧ x.id = id ∧ removeItem s id = .ok s1 ∧
        loadCart s1 = .ok (l1 ++ l2) ∧ distinctIds (l1 ++ l2) + 1 = distinctIds cart) ∧
    (id ∉ ids cart → ∃ s1, removeItem s id = .ok s1 ∧ loadCart s1 = .ok cart) := by
  have hrun : removeItem s id = .ok (saveCart s (cart.filter fun x => x.id != id)) := by
    simp only [removeItem, hload, bind, Except.bind, pure, Except.pure]
  constructor
  · intro hmem
    obtain ⟨l1, x, l2, hc, hx, h1, h2⟩ := split_at_id hu hmem
    have hst := loadCart_stable hload
    refine ⟨l1, x, l2, _, hc, hx, hrun, ?_, ?_⟩
    · rw [loadCart_saveCart, hc, filter_split l1 l2 x hx h1 h2]
      rw [hc] at hst
      simp only [List.map_append, List.map_cons, List.append_cancel_left_eq] at hst ⊢
      have hl := List.append_inj hst (by simp)
      rw [hl.1, (List.cons.inj hl.2).2]
    · have hu2 : UniqueIds (l1 ++ l2) := by
        have hu1 : (ids l1 ++ x.id :: ids l2).Nodup := by
          simpa [UniqueIds, hc, ids_append, ids_cons] using hu
        rw [UniqueIds, ids_append]
        exact (List.nodup_cons.mp (List.nodup_middle.mp hu1)).2
      rw [distinctIds_of_unique hu2, distinctIds_of_unique hu, hc]
      simp
      omega
  · intro hmem
    refine ⟨_, hrun, ?_⟩
    rw [loadCart_saveCart, filter_ne_of_not_mem hmem, loadCart_stable hload]

/-- C7, at a concrete input: removing the first of two lines. -/
theorem removeItem_spec_witness :
    loadCart twoLines = .ok [⟨"fries", "Fries", Field.num (JNum.fin (5 / 2)),
      Field.num (JNum.fin 2)⟩, ⟨"soda", "Soda", Field.num (JNum.fin 1), Field.num (JNum.fin 3)⟩] ∧
    ∃ l1 x l2 s1,
      [(⟨"fries", "Fries", Field.num (JNum.fin (5 / 2)), Field.num (JNum.fin 2)⟩ : CartItem),
        ⟨"soda", "Soda", Field.num (JNum.fin 1), Field.num (JNum.fin 3)⟩] = l1 ++ x :: l2 ∧
      x.id = "fries" ∧ removeItem twoLines "fries" = .ok s1 ∧ loadCart s1 = .ok (l1 ++ l2) :=
  ⟨rfl, by
    obtain ⟨l1, x, l2, s1, h1, h2, h3, h4, -⟩ :=
      (removeItem_spec twoLines _ "fries" rfl (by decide)).1 (by decide)
    exact ⟨l1, x, l2, s1, h1, h2, h3, h4⟩⟩

/-! ## Totals (C3) -/

/-- C4: `loadCart` never throws; it returns the empty cart when the slot is
absent, holds the empty text, holds text that is not JSON, or holds JSON for
`null`, a boolean, a number, a string or an object; it returns the parsed
array when the slot holds JSON for an array. -/
theorem loadCart_fail_soft :
    (∀ s : Storage, ∃ cart, loadCart s = .ok cart) ∧
    loadCart Storage.absent = .ok [] ∧
    loadCart Storage.empty = .ok [] ∧
    loadCart Storage.malformed = .ok [] ∧
    loadCart (Storage.json JsonValue.null) = .ok [] ∧
    (∀ b, loadCart (Storage.json (JsonValue.bool b)) = .ok []) ∧
    (∀ q, loadCart (Storage.json (JsonValue.number q)) = .ok []) ∧
    (∀ t, loadCart (Storage.json (JsonValue.string t)) = .ok []) ∧
    loadCart (Storage.json JsonValue.object) = .ok [] ∧
    (∀ items, loadCart (Storage.json (JsonValue.array items)) = .ok (items.map Item.ofJson)) :=
  ⟨loadCart_total, rfl, rfl, rfl, rfl, fun _ => rfl, fun _ => rfl, fun _ => rfl, rfl,
    fun _ => rfl⟩

theorem persisted_of_finite (x : CartItem)
    (h : x.price.isPrice = true ∧ x.qty.isQuantity = true) : Item.persisted x = x := by
  obtain ⟨id, name, price, qty⟩ := x
  obtain ⟨hp, hq⟩ := h
  cases price with
  | null => simp [Field.isPrice] at hp
  | num p =>
    cases p <;> first | (simp [Field.isPrice] at hp; done) | skip
    cases qty with
    | null => simp [Field.isQuantity] at hq
    | num q =>
      cases q <;> first | (simp [Field.isQuantity] at hq; done) | skip
      rfl

/-- C5: for every cart of the data model and every prior content of the slot,
`saveCart` followed by `loadCart` returns the same items in the same order, and
what `saveCart` leaves does not depend on the prior content. -/
theorem save_load_roundtrip (prior other : Storage) (cart : Cart) (hc : CartConforms cart) :
    loadCart (saveCart prior cart) = .ok cart ∧ saveCart prior cart = saveCart other cart := by
  refine ⟨?_, rfl⟩
  rw [loadCart_saveCart]
  congr 1
  calc cart.map Item.persisted = cart.map id :=
        List.map_congr_left fun x hx => persisted_of_finite x (hc.2 x hx)
    _ = cart := List.map_id cart

/-- C5, at a concrete input: the example cart over a malformed slot. -/
theorem save_load_roundtrip_witness :
    CartConforms exampleCart ∧
    loadCart (saveCart Storage.malformed exampleCart) = .ok exampleCart ∧
    saveCart Storage.malformed exampleCart = saveCart Storage.absent exampleCart :=
  ⟨by decide!, save_load_roundtrip Storage.malformed Storage.absent exampleCart (by decide!)⟩

/-! ## Setting a quantity (C6) -/

theorem max_one_or_one (n : JNum) :
    JNum.max (JNum.fin 1) (if n.truthy then n else JNum.fin 1) = specQty n := by
  cases n with
  | fin q =>
    by_cases hq : q = 0
    · subst hq
      simp [JNum.truthy, JNum.max, specQty]
    · simp [JNum.truthy, JNum.max, specQty, hq]
  | nan => simp [JNum.truthy, JNum.max, specQty]
  | posInf => simp [JNum.truthy, JNum.max, specQty]
  | negInf => simp [JNum.truthy, JNum.max, specQty]

/-- C8: on an empty cart the checkout handler asks nothing, shows nothing and
leaves the slot as it is; on a non-empty cart with the confirmation declined
it shows no message and leaves the slot as it is; on a non-empty cart with the
confirmation given, the persisted cart afterwards is empty and its item count
is 0. -/
theorem checkout_spec (s : Storage) (cart : Cart) (hasMessageEl : Bool) (r : ℚ)
    (hload : loadCart s = .ok cart) :
    (cart = [] → ∀ ok,
      checkoutClick s hasMessageEl ok r
        = .ok { storage := s, asked := none, message := none }) ∧
    (cart ≠ [] →
      checkoutClick s hasMessageEl false r
        = .ok { storage := s, asked := some (computeTotals cart).total, message := none }) ∧
    (cart ≠ [] →
      ∃ out cart1, checkoutClick s hasMessageEl true r = .ok out ∧
        loadCart out.storage = .ok cart1 ∧ cart1 = [] ∧ getCartCount cart1 = JNum.fin 0) := by
  refine ⟨?_, ?_, ?_⟩
  · intro hc ok
    subst hc
    simp [checkoutClick, hload, bind, Except.bind, pure, Except.pure]
  · intro hc
    have hlen : cart.length ≠ 0 := fun h => hc (List.length_eq_zero.mp h)
    simp [checkoutClick, hload, bind, Except.bind, pure, Except.pure, hlen]
  · intro hc
    have hlen : cart.length ≠ 0 := fun h => hc (List.length_eq_zero.mp h)
    refine ⟨{ storage := saveCart s [], asked := some (computeTotals cart).total,
              message :=
                if hasMessageEl then
                  some ("✅ Order placed! Your order number is " ++ orderNumber r ++ ".")
                else none }, [], ?_, rfl, rfl, rfl⟩
    simp [checkoutClick, hload, bind, Except.bind, pure, Except.pure, clearCart, hlen]

/-- C8, at a concrete input: a confirmed checkout of a cart with two lines. -/
theorem checkout_spec_witness :
    loadCart twoLines = .ok [⟨"fries", "Fries", Field.num (JNum.fin (5 / 2)),
      Field.num (JNum.fin 2)⟩, ⟨"soda", "Soda", Field.num (JNum.fin 1), Field.num (JNum.fin 3)⟩] ∧
    ∃ out cart1, checkoutClick twoLines true true (1 / 2) = .ok out ∧
      loadCart out.storage = .ok cart1 ∧ cart1 = [] ∧ getCartCount cart1 = JNum.fin 0 :=
  ⟨rfl, (checkout_spec twoLines _ true (1 / 2) rfl).2.2 (by simp)⟩

/-! ## The guard of the add-to-cart button (C9) -/

/-- C9 as stated fails: `addToCart` with an empty id adds an item to the empty
cart, and the button handler with a price text that is not a number adds an
item too (its price is persisted as `null`). -/
theorem addToCart_unguarded :
    loadCart Storage.absent = .ok [] ∧
    (addToCart Storage.absent
        { id := "", name := "Fries", price := Prim.str "2.50", qty := some (JNum.fin 1) }
      >>= loadCart)
      = .ok [⟨"", "Fries", Field.num (JNum.fin (5 / 2)), Field.num (JNum.fin 1)⟩] ∧
    (addButtonClick Storage.absent (some "fries") (some "Fries") (some "abc") >>= loadCart)
      = .ok [⟨"fries", "Fries", Field.null, Field.num (JNum.fin 1)⟩] := by
  decide!

/-- C9, amended: the click handler of an add-to-cart button is a silent
no-op (the slot is left as it is and `addToCart` is not called) whenever the
id, the name or the price attribute of the button is missing or empty. -/
theorem addButtonClick_guard (s : Storage) (id name price : Option String)
    (h : (id = none ∨ id = some "") ∨ (name = none ∨ name = some "") ∨
      (price = none ∨ price = some "")) :
    addButtonClick s id name price = .ok s := by
  have hm : (attrMissing id || attrMissing name || attrMissing price) = true := by
    rcases h with (h | h) | (h | h) | (h | h) <;> subst h <;> simp [attrMissing]
  simp only [addButtonClick, hm, if_true]
  rfl

/-- C9 amended, at a concrete input: a button without a price attribute. -/
theorem addButtonClick_guard_witness :
    ((some "fries" = none ∨ some "fries" = some "") ∨
      (some "Fries" = none ∨ some "Fries" = some "") ∨
      ((none : Option String) = none ∨ (none : Option String) = some "")) ∧
    addButtonClick twoLines (some "fries") (some "Fries") none = .ok twoLines :=
  ⟨Or.inr (Or.inr (Or.inl rfl)),
    addButtonClick_guard twoLines (some "fries") (some "Fries") none
      (Or.inr (Or.inr (Or.inl rfl)))⟩

/-! ## Idempotence (C10) -/

theorem toJson_persisted (x : CartItem) : Item.toJson (Item.persisted x) = Item.toJson x := by
  simp [Item.persisted, toJson_ofJson]

theorem twice_of_ok {f : Storage → Except JsError Storage} {s s1 : Storage}
    (h : f s = .ok s1) : twice f s = f s1 := by
  simp [twice, h, bind, Except.bind]

theorem removeItem_run {s : Storage} {cart : Cart} (hload : loadCart s = .ok cart)
    (id : String) :
    removeItem s id = .ok (saveCart s (cart.filter fun x => x.id != id)) := by
  simp only [removeItem, hload, bind, Except.bind, pure, Except.pure]

theorem setQty_run_none {s : Storage} {cart : Cart} (hload : loadCart s = .ok cart)
    {id : String} (hfind : cart.find? (fun x => x.id == id) = none) (v : Prim) :
    setQty s id v = .ok s := by
  simp only [setQty, hload, bind, Except.bind, pure, Except.pure, hfind]

theorem setQty_run_some {s : Storage} {cart : Cart} (hload : loadCart s = .ok cart)
    {id : String} {y : CartItem} (hfind : cart.find? (fun x => x.id == id) = some y) (v : Prim) :
    setQty s id v = .ok (saveCart s
      (updateFirst (fun x => x.id == id)
        (fun item => { item with qty := Field.num (specQty v.toNumber) }) cart)) := by
  simp only [setQty, hload, bind, Except.bind, pure, Except.pure, hfind, max_one_or_one]

theorem filter_map_persisted (id : String) (l : Cart) :
    (l.map Item.persisted).filter (fun x => x.id != id)
      = (l.filter fun x => x.id != id).map Item.persisted := by
  induction l with
  | nil => rfl
  | cons x l ih =>
    have hid : (Item.persisted x).id = x.id := rfl
    by_cases hx : x.id = id
    · simp [List.filter_cons, hid, hx, ih]
    · simp [List.filter_cons, hid, hx, ih]

theorem removeItem_idempotent (s : Storage) (id : String) :
    twice (fun t => removeItem t id) s = removeItem s id := by
  obtain ⟨cart, hload⟩ := loadCart_total s
  have hrun := removeItem_run hload id
  rw [twice_of_ok (f := fun t => removeItem t id) hrun, hrun,
    removeItem_run (loadCart_saveCart s _) id, filter_map_persisted, List.filter_filter]
  simp [saveCart, List.map_map, Function.comp_def, toJson_persisted]

theorem find_map_persisted (id : String) (l : Cart) :
    ((l.map Item.persisted).find? fun x => x.id == id).isSome
      = (l.find? fun x => x.id == id).isSome := by
  induction l with
  | nil => rfl
  | cons x l ih =>
    have hid : (Item.persisted x).id = x.id := rfl
    rw [List.map_cons, List.find?_cons, List.find?_cons, hid]
    cases hb : (x.id == id) with
    | true => rfl
    | false => exact ih

theorem find_updateFirst (id : String) (f : CartItem → CartItem) (hf : ∀ x, (f x).id = x.id)
    (l : Cart) :
    ((updateFirst (fun x => x.id == id) f l).find? fun x => x.id == id).isSome
      = (l.find? fun x => x.id == id).isSome := by
  induction l with
  | nil => rfl
  | cons x l ih =>
    cases hb : (x.id == id) with
    | true =>
      have hb2 : ((f x).id == id) = true := by rw [hf]; exact hb
      simp [updateFirst, List.find?_cons, hb, hb2]
    | false =>
      simp only [updateFirst, hb, List.find?_cons, Bool.false_eq_true, if_false]
      exact ih

/-- Assigning the same quantity a second time, after a round trip through
storage, writes the same JSON. -/
theorem assign_twice (id : String) (q : JNum) (l : Cart) :
    (updateFirst (fun x => x.id == id) (fun item => { item with qty := Field.num q })
        ((updateFirst (fun x => x.id == id) (fun item => { item with qty := Field.num q }) l).map
          Item.persisted)).map Item.toJson
      = (updateFirst (fun x => x.id == id)
          (fun item => { item with qty := Field.num q }) l).map Item.toJson := by
  induction l with
  | nil => rfl
  | cons x l ih =>
    by_cases hx : x.id = id
    · have hb : (x.id == id) = true := by simp [hx]
      have hb2 : ((Item.persisted { x with qty := Field.num q }).id == id) = true := hb
      simp only [updateFirst, hb, if_true, List.map_cons, hb2]
      congr 1
      · simp [Item.toJson, Item.persisted, Item.ofJson, toJson_toField]
      · simp [List.map_map, Function.comp_def, toJson_persisted]
    · have hb : (x.id == id) = false := by simp [hx]
      have hb2 : ((Item.persisted x).id == id) = false := hb
      simp only [updateFirst, hb, List.map_cons, hb2, Bool.false_eq_true, if_false]
      rw [toJson_persisted, ih]

theorem setQty_idempotent (s : Storage) (id : String) (v : Prim) :
    twice (fun t => setQty t id v) s = setQty s id v := by
  obtain ⟨cart, hload⟩ := loadCart_total s
  cases hfind : cart.find? (fun x => x.id == id) with
  | none =>
    have hrun := setQty_run_none hload hfind v
    rw [twice_of_ok (f := fun t => setQty t id v) hrun]
  | some y =>
    have hrun := setQty_run_some hload hfind v
    have hsome : (((updateFirst (fun x => x.id == id)
        (fun item => { item with qty := Field.num (specQty v.toNumber) }) cart).map
          Item.persisted).find? fun x => x.id == id).isSome = true := by
      rw [find_map_persisted,
        find_updateFirst id (fun item => { item with qty := Field.num (specQty v.toNumber) })
          (fun _ => rfl), hfind]
      rfl
    obtain ⟨z, hz⟩ := Option.isSome_iff_exists.mp hsome
    rw [twice_of_ok (f := fun t => setQty t id v) hrun, hrun,
      setQty_run_some (loadCart_saveCart s _) hz v]
    simp only [saveCart, assign_twice]

/-- C10 as stated fails: `removeItem` with an id that is present and `setQty`
are idempotent, so no valid cart separates one application from two. -/
theorem no_cart_separates_removeItem_setQty :
    (¬ ∃ (s : Storage) (cart : Cart) (id : String),
      loadCart s = .ok cart ∧ CartValid cart ∧ id ∈ ids cart ∧
      twice (fun t => removeItem t id) s ≠ removeItem s id) ∧
    (¬ ∃ (s : Storage) (cart : Cart) (id : String) (v : Prim),
      loadCart s = .ok cart ∧ CartValid cart ∧
      twice (fun t => setQty t id v) s ≠ setQty s id v) := by
  constructor
  · rintro ⟨s, cart, id, -, -, -, h⟩
    exact h (removeItem_idempotent s id)
  · rintro ⟨s, cart, id, v, -, -, h⟩
    exact h (setQty_idempotent s id v)

/-- C10, amended: `clearCart`, `removeItem` (with any id) and `setQty` are
idempotent on every content of the slot; `addToCart`, `incQty` and `decQty`
are not: for each there is a valid cart on which two applications differ from
one. -/
theorem idempotence :
    (∀ s, twice clearCart s = clearCart s) ∧
    (∀ s id, twice (fun t => removeItem t id) s = removeItem s id) ∧
    (∀ s id v, twice (fun t => setQty t id v) s = setQty s id v) ∧
    (∃ (s : Storage) (cart : Cart) (a : AddArgs),
      loadCart s = .ok cart ∧ CartValid cart ∧ a.qty = some (JNum.fin 1) ∧
      twice (fun t => addToCart t a) s ≠ addToCart s a) ∧
    (∃ (s : Storage) (cart : Cart) (id : String),
      loadCart s = .ok cart ∧ CartValid cart ∧
      twice (fun t => incQty t id) s ≠ incQty s id) ∧
    (∃ (s : Storage) (cart : Cart) (id : String),
      loadCart s = .ok cart ∧ CartValid cart ∧
      twice (fun t => decQty t id) s ≠ decQty s id) := by
  refine ⟨fun s => rfl, removeItem_idempotent, setQty_idempotent, ?_, ?_, ?_⟩
  · exact ⟨oneLine 3, _, ⟨"fries", "Fries", Prim.str "2.50", some (JNum.fin 1)⟩, rfl,
      by decide!, rfl, by decide!⟩
  · exact ⟨oneLine 3, _, "fries", rfl, by decide!, by decide!⟩
  · exact ⟨oneLine 3, _, "fries", rfl, by decide!, by decide!⟩

/-! ## The validity invariant (C2) -/

end DevcampFries
